import Mathlib

/-!
Verification development for the Heat-Pump-Efficacy-Dashboard repository.

The repository has two Python files:
  * `src/process-data.py` — one-off preprocessing of a raw city table into
    the catalog CSV `data/cities.csv`;
  * `src/app.py` — the Shiny dashboard: catalog load at module scope, an
    `apiresponse` reactive fetch, `filter_df` building the raw series
    dataframe, `updateslider` unit side effects, `text`/`map` coordinate
    outputs, `hist_table` threshold summary and `plot` rendering.

Conventions of the shallow embedding:
  * pandas dataframes become explicit structures of columns (lists);
  * numpy float NaN (from `0/0` division and from `rolling(...).mean()` on
    an incomplete window) is modelled as `none : Option ℚ`;
  * a Python expression that raises `IndexError` on an empty selection
    (`[...].tolist()[0]`) is modelled with `Option`, `none` being the error;
  * floats are idealised as rationals; Python/numpy `round(x, d)`
    (round-half-to-even at `d` decimal digits) becomes `roundTo d`;
  * in-place dataframe mutation (`df["col"] = ...` on the shared cached
    frame) is modelled by returning the updated frame next to the output.
-/

/-! ## Catalog preprocessing (`src/process-data.py`) -/

/-- A row of the raw SimpleMaps table `data-raw/uscities.csv`, restricted to
the columns `process-data.py` reads (`city`, `state_name`, `population`,
`lat`, `lng`); the other raw columns are dropped by the final column
selection and never read. -/
structure RawCity where
  city : String
  state_name : String
  population : ℤ
  lat : ℚ
  lng : ℚ
deriving DecidableEq, Repr

/-- A row of the produced catalog `data/cities.csv`: columns
`city_state`, `lat`, `lng` (the column names `to_csv` writes). -/
structure CityRow where
  city_state : String
  lat : ℚ
  lng : ℚ
deriving DecidableEq, Repr

/-- `process-data.py`: keep rows with `population >= 10000`, derive
`city_state = city + ', ' + state_name`, select `city_state, lat, lng`. -/
def processData (raw : List RawCity) : List CityRow :=
  (raw.filter (fun r => 10000 ≤ r.population)).map
    (fun r => { city_state := r.city ++ ", " ++ r.state_name,
                lat := r.lat, lng := r.lng })

/-- The header line `df.to_csv("data/cities.csv", index=False)` writes: the
column names of the frame `df[["city_state", "lat", "lng"]]`. -/
def catalogHeader : String := "city_state,lat,lng"

/-! ## Rounding (`round(x, d)` in numpy/pandas: half-to-even) -/

/-- Round a rational to the nearest integer, ties to the even integer
(IEEE / numpy `round` tie rule). -/
def roundHalfEven (q : ℚ) : ℤ :=
  if q - ⌊q⌋ < 1/2 then ⌊q⌋
  else if 1/2 < q - ⌊q⌋ then ⌊q⌋ + 1
  else if ⌊q⌋ % 2 = 0 then ⌊q⌋ else ⌊q⌋ + 1

/-- `round(x, d)`: round to `d` decimal digits, ties to even. -/
def roundTo (d : ℕ) (q : ℚ) : ℚ :=
  (roundHalfEven (q * 10 ^ d) : ℚ) / 10 ^ d

/-! ## Threshold summary table (`hist_table` in `src/app.py`) -/

/-- `np.arange(start, stop, -1)` as a list of integers: `start`,
`start - 1`, …, down to but excluding `stop`. -/
def arangeDown (start stop : ℤ) : List ℤ :=
  (List.range (start - stop).toNat).map (fun k : ℕ => start - (k : ℤ))

/-- `len(histdf[histdf["temperature_2m_min"] < i])`: the number of series
entries strictly below the threshold. -/
def countBelow (temps : List ℚ) (t : ℚ) : ℕ :=
  (temps.filter (fun x => x < t)).length

/-- One row of the summary table: columns `Temp`, `Days Below`,
`Proportion Below` (`none` models the NaN produced by `0/0`). -/
structure ThresholdRow where
  temp : ℤ
  days_below : ℕ
  proportion_below : Option ℚ
deriving DecidableEq, Repr

/-- `hist_table` in `src/app.py`: temperatures from
`np.arange(tableTemp[1], tableTemp[0] - 1, -1)`, per temperature the strict
count below, and `round(days_below / len(histdf), 3)`.  With a zero-length
series the pandas division yields NaN (`0/0`), not an exception; that NaN
is `none` here. -/
def hist_table (temps : List ℚ) (tlow thigh : ℤ) : List ThresholdRow :=
  (arangeDown thigh (tlow - 1)).map (fun t =>
    { temp := t,
      days_below := countBelow temps (t : ℚ),
      proportion_below :=
        if temps.length = 0 then none
        else some (roundTo 3 ((countBelow temps (t : ℚ) : ℚ) / temps.length)) })

/-! ## Rolling averages (`plot` in `src/app.py`) -/

/-- `series.rolling(window=w).mean()`: entry `i` is NaN (`none`) while the
trailing window is incomplete (`i + 1 < w`), else the mean of the `w`
entries ending at `i`. -/
def rollingMean (w : ℕ) (xs : List ℚ) : List (Option ℚ) :=
  (List.range xs.length).map (fun i =>
    if i + 1 < w then none
    else some (((xs.drop (i + 1 - w)).take w).sum / (w : ℚ)))

/-! ## Reactive inputs and the fetch (`apiresponse` in `src/app.py`) -/

/-- The user-editable inputs of the dashboard, as read by the server
functions: `input.city()`, `input.daterange()`, `input.tempunits()`
(radio keys `"fahrenheit"` / `"celsius"`), `input.plotTemp()`,
`input.plotOptions()`, `input.tableTemp()` (a `[low, high]` pair). -/
structure Inputs where
  city : String
  daterange : String × String
  tempunits : String
  plotTemp : ℤ
  plotOptions : List String
  tableTemp : ℤ × ℤ
deriving DecidableEq, Repr

/-- The `params` dict `apiresponse` sends to the archive endpoint. -/
structure OMParams where
  latitude : ℚ
  longitude : ℚ
  start_date : String
  end_date : String
  daily : String
  temperature_unit : String
deriving DecidableEq, Repr

/-- `df[df["city_state"] == c][col].tolist()[0]`: the chosen column of the
first catalog row whose `city_state` equals `c`; `none` models the
`IndexError` raised by `[0]` on an empty selection. -/
def lookupFirst (df : List CityRow) (col : CityRow → ℚ) (c : String) : Option ℚ :=
  ((df.filter (fun r => r.city_state = c)).map col).head?

/-- The request `apiresponse` builds: it reads `input.daterange()`,
`req(input.city())` (modelled as failure on the empty string), resolves
`lat`/`long` from the catalog by `city_state`, reads `input.tempunits()`,
and fixes `daily = "temperature_2m_min"`.  No other input is read. -/
def apiParams (df : List CityRow) (inp : Inputs) : Option OMParams :=
  if inp.city = "" then none
  else
    match lookupFirst df (fun r => r.lat) inp.city,
          lookupFirst df (fun r => r.lng) inp.city with
    | some lat, some lng =>
        some { latitude := lat, longitude := lng,
               start_date := inp.daterange.1, end_date := inp.daterange.2,
               daily := "temperature_2m_min",
               temperature_unit := inp.tempunits }
    | _, _ => none

/-- The parts of the Open-Meteo response object the app reads:
`Latitude()`, `Longitude()` (the service-resolved coordinate, which may
differ from the requested one), and `Daily()`'s `Time()`, `TimeEnd()`,
`Interval()` and `Variables(0).ValuesAsNumpy()`. -/
structure OMResponse where
  latitude : ℚ
  longitude : ℚ
  time : ℤ
  timeEnd : ℤ
  interval : ℤ
  values : List ℚ
deriving DecidableEq, Repr

/-- `apiresponse` as a reactive node: the external service is an oracle
`fetch` from the request parameters to the (first) response.  The node's
value is a function of the request alone. -/
def apiresponse (fetch : OMParams → OMResponse) (df : List CityRow)
    (inp : Inputs) : Option OMResponse :=
  (apiParams df inp).map fetch

/-! ## Raw series dataframe (`filter_df` in `src/app.py`) -/

/-- `pd.date_range(start, end, freq=step, inclusive="left")` over integer
timestamps: `start`, `start + step`, …, strictly below `stop`. -/
def dateRangeLeft (start stop step : ℤ) : List ℤ :=
  if step ≤ 0 then []
  else (List.range ((stop - start + step - 1) / step).toNat).map
    (fun k : ℕ => start + (k : ℤ) * step)

/-- The dataframe `filter_df` returns, with the two columns it builds plus
the two rolling-average columns `plot` later assigns in place (absent,
`none`, until `plot` first runs on the shared cached frame). -/
structure WeatherDF where
  date : List ℤ
  temperature_2m_min : List ℚ
  weekrollingavg : Option (List (Option ℚ))
  monthrollingavg : Option (List (Option ℚ))
deriving DecidableEq, Repr

/-- `filter_df`: dates from the response's time span (left-inclusive), the
daily minimum temperatures from the response values. -/
def filter_df (response : OMResponse) : WeatherDF :=
  { date := dateRangeLeft response.time response.timeEnd response.interval,
    temperature_2m_min := response.values,
    weekrollingavg := none,
    monthrollingavg := none }

/-! ## Plot rendering (`plot` in `src/app.py`) -/

/-- The figure `plot` renders: the threshold line, the two scatter-point
partitions (black at-or-above, lightgray below), the optional rolling
overlays, and the unit-dependent y label. -/
structure PlotFig where
  threshold : ℤ
  upper : List (ℤ × ℚ)
  lower : List (ℤ × ℚ)
  weekly : Option (List (ℤ × Option ℚ))
  monthly : Option (List (ℤ × Option ℚ))
  ylabel : String
deriving DecidableEq, Repr

/-- `plot`: assigns `df["weekrollingavg"]` and `df["monthrollingavg"]` in
place on the shared frame returned by the cached `filter_df` (the second
component of the result is the frame after those assignments), then
partitions points at `input.plotTemp()` (`>=` above, `<` below — pure
filters building new frames) and draws the optional overlays. -/
def plot (inp : Inputs) (df0 : WeatherDF) : PlotFig × WeatherDF :=
  let df : WeatherDF :=
    { df0 with
      weekrollingavg := some (rollingMean 7 df0.temperature_2m_min),
      monthrollingavg := some (rollingMean 30 df0.temperature_2m_min) }
  let pts := df.date.zip df.temperature_2m_min
  ({ threshold := inp.plotTemp,
     upper := pts.filter (fun p => (inp.plotTemp : ℚ) ≤ p.2),
     lower := pts.filter (fun p => p.2 < (inp.plotTemp : ℚ)),
     weekly :=
       if "weekly" ∈ inp.plotOptions
       then some (df.date.zip (rollingMean 7 df.temperature_2m_min)) else none,
     monthly :=
       if "monthly" ∈ inp.plotOptions
       then some (df.date.zip (rollingMean 30 df.temperature_2m_min)) else none,
     ylabel :=
       if inp.tempunits = "fahrenheit" then "Daily Minimum Temperature °F"
       else "Daily Minimum Temperature °C" },
   df)

/-! ## Slider side effect (`updateslider` in `src/app.py`) -/

/-- One `ui.update_slider` call: the value and bounds it sets. -/
structure SliderUpdate where
  value : ℤ
  lo : ℤ
  hi : ℤ
deriving DecidableEq, Repr

/-- A range-slider update (`tableTemp` holds a `[low, high]` value). -/
structure RangeSliderUpdate where
  value : ℤ × ℤ
  lo : ℤ
  hi : ℤ
deriving DecidableEq, Repr

/-- `updateslider`: the reactive effect reads only `input.tempunits()` and
issues the two `ui.update_slider` calls, every field a conditional on
`tempunits == "fahrenheit"`.  The full `Inputs` is passed to show the
prior slider positions are never consulted. -/
def updateslider (inp : Inputs) : SliderUpdate × RangeSliderUpdate :=
  (⟨if inp.tempunits = "fahrenheit" then 5 else -15,
    if inp.tempunits = "fahrenheit" then -15 else -25,
    if inp.tempunits = "fahrenheit" then 50 else 10⟩,
   ⟨if inp.tempunits = "fahrenheit" then (0, 15) else (-20, -10),
    if inp.tempunits = "fahrenheit" then -25 else -30,
    if inp.tempunits = "fahrenheit" then 60 else 15⟩)

/-! ## Coordinate text and map (`text` / `map` in `src/app.py`) -/

/-- `text`: renders `round(response.Latitude(), 4)` and
`round(response.Longitude(), 4)` from the fetched response (decimal float
formatting idealised as `toString` of the rounded rational). -/
def text (response : OMResponse) : String :=
  toString (roundTo 4 response.latitude) ++ "°N, " ++
    toString (roundTo 4 response.longitude) ++ "°E"

/-- The leaflet widget `map` builds: center, marker and zoom. -/
structure MapWidget where
  center : ℚ × ℚ
  marker : ℚ × ℚ
  zoom : ℤ
deriving DecidableEq, Repr

/-- `map`: centers on `(response.Latitude(), response.Longitude())` and
puts the marker at the same resolved coordinate. -/
def mapWidget (response : OMResponse) : MapWidget :=
  { center := (response.latitude, response.longitude),
    marker := (response.latitude, response.longitude),
    zoom := 12 }

/-- The `text` output as a whole-pipeline node (reads `apiresponse()`). -/
def textNode (fetch : OMParams → OMResponse) (df : List CityRow)
    (inp : Inputs) : Option String :=
  (apiresponse fetch df inp).map text

/-- The `map` output as a whole-pipeline node (reads `apiresponse()`). -/
def mapNode (fetch : OMParams → OMResponse) (df : List CityRow)
    (inp : Inputs) : Option MapWidget :=
  (apiresponse fetch df inp).map mapWidget

/-! ## Module-scope startup (`src/app.py` lines 17–20) -/

/-- `df[df["city_state"] == "Urbana, Illinois"]["lat"].tolist()[0]`,
evaluated at module load before any interaction; `none` models the
uncaught `IndexError` when no catalog row has that exact label. -/
def startupLat (df : List CityRow) : Option ℚ :=
  ((df.filter (fun r => r.city_state = "Urbana, Illinois")).map
    (fun r => r.lat)).head?

/-! ## Helper lemmas -/

lemma arangeDown_length (start stop : ℤ) :
    (arangeDown start stop).length = (start - stop).toNat := by
  rw [arangeDown, List.length_map, List.length_range]

lemma arangeDown_getElem (start stop : ℤ) (i : ℕ)
    (h : i < (arangeDown start stop).length) :
    (arangeDown start stop)[i] = start - (i : ℤ) := by
  simp only [arangeDown, List.getElem_map, List.getElem_range]

lemma sum_take_eq_sum_getD (ys : List ℚ) (n : ℕ) (h : n ≤ ys.length) :
    (ys.take n).sum = ∑ k in Finset.range n, ys.getD k 0 := by
  induction n with
  | zero => simp
  | succ m ih =>
      have hm : m < ys.length := by omega
      rw [Finset.sum_range_succ, ← ih (by omega), List.take_succ,
        List.getElem?_eq_getElem hm, List.sum_append,
        List.getD_eq_getElem?_getD, List.getElem?_eq_getElem hm]
      simp

lemma getD_drop_eq (xs : List ℚ) (m k : ℕ) :
    (xs.drop m).getD k 0 = xs.getD (m + k) 0 := by
  simp [List.getD_eq_getElem?_getD, List.getElem?_drop]

lemma head?_filter_eq_find? {α : Type} (p : α → Bool) (l : List α) :
    (l.filter p).head? = l.find? p := by
  induction l with
  | nil => rfl
  | cons a l ih =>
      by_cases h : p a
      · simp [List.filter_cons, h, List.find?_cons_of_pos]
      · simp only [List.filter_cons, h, Bool.false_eq_true, if_false, ih]
        rw [List.find?_cons_of_neg _ (by simp [h])]

lemma roundHalfEven_nonneg (q : ℚ) (h : 0 ≤ q) : 0 ≤ roundHalfEven q := by
  have hf : 0 ≤ ⌊q⌋ := Int.floor_nonneg.mpr h
  unfold roundHalfEven
  split_ifs <;> omega

lemma roundHalfEven_le_int (q : ℚ) (n : ℤ) (h : q ≤ n) :
    roundHalfEven q ≤ n := by
  have hf : ⌊q⌋ ≤ n := by
    have := Int.floor_le_floor h
    simpa [Int.floor_intCast] using this
  unfold roundHalfEven
  split_ifs with h1 h2 h3
  · exact hf
  all_goals {
    have hq : (⌊q⌋ : ℚ) + 1/2 ≤ q := by push_neg at h1; linarith
    have hlt : (⌊q⌋ : ℚ) < (n : ℚ) := by linarith
    have hfn : ⌊q⌋ < n := by exact_mod_cast hlt
    omega }

lemma roundTo_nonneg (d : ℕ) (q : ℚ) (h : 0 ≤ q) : 0 ≤ roundTo d q := by
  unfold roundTo
  have h1 : (0 : ℤ) ≤ roundHalfEven (q * 10 ^ d) :=
    roundHalfEven_nonneg _ (mul_nonneg h (by positivity))
  have h2 : (0 : ℚ) ≤ (roundHalfEven (q * 10 ^ d) : ℚ) := by exact_mod_cast h1
  positivity

lemma roundTo_le_one (d : ℕ) (q : ℚ) (h : q ≤ 1) : roundTo d q ≤ 1 := by
  unfold roundTo
  have h1 : roundHalfEven (q * 10 ^ d) ≤ ((10 : ℤ) ^ d) := by
    apply roundHalfEven_le_int
    push_cast
    exact mul_le_of_le_one_left (by positivity) h
  rw [div_le_one (by positivity)]
  exact_mod_cast h1

/-! ## Claim theorems -/

/-- C1: for every series and every integer range `low ≤ high`, the summary
table produced by `hist_table` has exactly one row per integer temperature
from `high` down to `low` inclusive — row `i` carries temperature
`high - i`, so the rows descend by one — and each row's days-below value is
the number of series entries with `min_temperature` strictly below the
row's temperature. -/
theorem hist_table_rows (temps : List ℚ) (low high : ℤ) (h : low ≤ high) :
    (hist_table temps low high).length = (high - low + 1).toNat ∧
    ∀ i : ℕ, ∀ hi : i < (hist_table temps low high).length,
      ((hist_table temps low high)[i]).temp = high - (i : ℤ) ∧
      ((hist_table temps low high)[i]).days_below
        = temps.countP (fun x => decide (x < ((high - (i : ℤ) : ℤ) : ℚ))) := by
  have hlen : (hist_table temps low high).length = (high - low + 1).toNat := by
    rw [hist_table, List.length_map, arangeDown_length]
    omega
  refine ⟨hlen, fun i hi => ⟨?_, ?_⟩⟩
  · simp only [hist_table, List.getElem_map, arangeDown_getElem]
  · simp only [hist_table, List.getElem_map, arangeDown_getElem, countBelow]
    exact (List.countP_eq_length_filter _ _).symm

/-- C1 witness: range `0 ≤ 2` with series `[1.5]`. -/
theorem hist_table_rows_witness :
    (0 : ℤ) ≤ 2 ∧
    ((hist_table [1.5] 0 2).length = ((2 : ℤ) - 0 + 1).toNat ∧
     ∀ i : ℕ, ∀ hi : i < (hist_table [1.5] 0 2).length,
       ((hist_table [1.5] 0 2)[i]).temp = 2 - (i : ℤ) ∧
       ((hist_table [1.5] 0 2)[i]).days_below
         = ([1.5] : List ℚ).countP (fun x => decide (x < (((2 : ℤ) - (i : ℤ) : ℤ) : ℚ)))) :=
  ⟨by decide, hist_table_rows [1.5] 0 2 (by decide)⟩

/-- C2: the derived weekly rolling average has the series' length, is
absent (`none`) for indices `0..5`, and at every index `i ≥ 6` is the
arithmetic mean of the `min_temperature` values at indices `i-6 .. i`; the
monthly rolling average follows the same pattern with window 30. -/
theorem rolling_avgs (xs : List ℚ) :
    (rollingMean 7 xs).length = xs.length ∧
    (rollingMean 30 xs).length = xs.length ∧
    (∀ i : ℕ, i < xs.length → i < 6 → (rollingMean 7 xs).getD i none = none) ∧
    (∀ i : ℕ, i < xs.length → 6 ≤ i →
      (rollingMean 7 xs).getD i none
        = some ((∑ k in Finset.range 7, xs.getD (i - 6 + k) 0) / 7)) ∧
    (∀ i : ℕ, i < xs.length → i < 29 → (rollingMean 30 xs).getD i none = none) ∧
    (∀ i : ℕ, i < xs.length → 29 ≤ i →
      (rollingMean 30 xs).getD i none
        = some ((∑ k in Finset.range 30, xs.getD (i - 29 + k) 0) / 30)) := by
  have hlen : ∀ w : ℕ, (rollingMean w xs).length = xs.length := fun w => by
    rw [rollingMean, List.length_map, List.length_range]
  have hgetD : ∀ w i : ℕ, i < xs.length →
      (rollingMean w xs).getD i none
        = if i + 1 < w then none
          else some (((xs.drop (i + 1 - w)).take w).sum / (w : ℚ)) := by
    intro w i hilt
    rw [rollingMean, List.getD_eq_getElem?_getD, List.getElem?_map,
      List.getElem?_range hilt]
    rfl
  have hwin : ∀ w i : ℕ, 0 < w → w ≤ i + 1 → i < xs.length →
      ((xs.drop (i + 1 - w)).take w).sum
        = ∑ k in Finset.range w, xs.getD (i + 1 - w + k) 0 := by
    intro w i hw hwi hilt
    rw [sum_take_eq_sum_getD _ w (by
      rw [List.length_drop]; omega)]
    exact Finset.sum_congr rfl fun k _ => getD_drop_eq xs (i + 1 - w) k
  refine ⟨hlen 7, hlen 30, ?_, ?_, ?_, ?_⟩
  · intro i hilt hi6
    rw [hgetD 7 i hilt, if_pos (by omega)]
  · intro i hilt hi6
    rw [hgetD 7 i hilt, if_neg (by omega), hwin 7 i (by omega) (by omega) hilt]
    have h76 : i + 1 - 7 = i - 6 := by omega
    rw [h76]
    norm_num
  · intro i hilt hi29
    rw [hgetD 30 i hilt, if_pos (by omega)]
  · intro i hilt hi29
    rw [hgetD 30 i hilt, if_neg (by omega), hwin 30 i (by omega) (by omega) hilt]
    have h329 : i + 1 - 30 = i - 29 := by omega
    rw [h329]
    norm_num

/-- C2 witness: the spec's own example series `[1,2,3,4,5,6,7,8]`, where
`weekly_avg[6] = 4` and `weekly_avg[7] = 5`. -/
theorem rolling_avgs_witness :
    (6 : ℕ) < ([1, 2, 3, 4, 5, 6, 7, 8] : List ℚ).length ∧ 6 ≤ (6 : ℕ) ∧
    (rollingMean 7 [1, 2, 3, 4, 5, 6, 7, 8]).getD 6 none
      = some ((∑ k in Finset.range 7,
          ([1, 2, 3, 4, 5, 6, 7, 8] : List ℚ).getD (6 - 6 + k) 0) / 7) :=
  ⟨by decide, by decide,
    (rolling_avgs [1, 2, 3, 4, 5, 6, 7, 8]).2.2.2.1 6 (by decide) (by decide)⟩

/-- C3: the fetch computation reads only the city, date-range and unit
inputs — for any two input states agreeing on `city`, `daterange` and
`tempunits` (in particular, states differing only in the plot-threshold
slider), the request built by `apiresponse` and the resulting response are
identical, whatever the external service answers. -/
theorem fetch_isolation (fetch : OMParams → OMResponse) (df : List CityRow)
    (i1 i2 : Inputs) (hc : i1.city = i2.city) (hd : i1.daterange = i2.daterange)
    (hu : i1.tempunits = i2.tempunits) :
    apiParams df i1 = apiParams df i2 ∧
    apiresponse fetch df i1 = apiresponse fetch df i2 := by
  have hp : apiParams df i1 = apiParams df i2 := by
    rw [apiParams, apiParams, hc, hd, hu]
  exact ⟨hp, by rw [apiresponse, apiresponse, hp]⟩

/-- C3 witness: two input states identical except for the plot-threshold
slider (5 versus 40) yield the same request and the same response. -/
theorem fetch_isolation_witness :
    (let dfw : List CityRow := [⟨"Urbana, Illinois", 40, -88⟩]
     let fetchw : OMParams → OMResponse := fun p => ⟨p.latitude, p.longitude, 0, 86400, 86400, [1]⟩
     let iA : Inputs := ⟨"Urbana, Illinois", ("2022-01-01", "2024-01-01"), "fahrenheit", 5, [], (0, 15)⟩
     let iB : Inputs := ⟨"Urbana, Illinois", ("2022-01-01", "2024-01-01"), "fahrenheit", 40, [], (0, 15)⟩
     apiParams dfw iA = apiParams dfw iB ∧
       apiresponse fetchw dfw iA = apiresponse fetchw dfw iB) :=
  fetch_isolation _ _ _ _ rfl rfl rfl

/-- C4: whenever the unit-system input changes, `updateslider` resets the
sliders from the unit alone, regardless of their prior positions: with
imperial units (`"fahrenheit"`) `plotTemp` is set to 5 with bounds
`[-15, 50]` and `tableTemp` to `[0, 15]` with bounds `[-25, 60]`; with
metric units (`"celsius"`) `plotTemp` is set to `-15` with bounds
`[-25, 10]` and `tableTemp` to `[-20, -10]` with bounds `[-30, 15]`. -/
theorem unit_switch_resets (inp : Inputs) :
    (inp.tempunits = "fahrenheit" →
      updateslider inp = (⟨5, -15, 50⟩, ⟨(0, 15), -25, 60⟩)) ∧
    (inp.tempunits = "celsius" →
      updateslider inp = (⟨-15, -25, 10⟩, ⟨(-20, -10), -30, 15⟩)) := by
  constructor <;> intro h <;> simp [updateslider, h]

/-- C4 witness: one imperial and one metric input state with arbitrary
prior slider positions. -/
theorem unit_switch_resets_witness :
    updateslider ⟨"Urbana, Illinois", ("2022-01-01", "2024-01-01"), "fahrenheit", 42, [], (7, 9)⟩
        = (⟨5, -15, 50⟩, ⟨(0, 15), -25, 60⟩) ∧
    updateslider ⟨"Urbana, Illinois", ("2022-01-01", "2024-01-01"), "celsius", 42, [], (7, 9)⟩
        = (⟨-15, -25, 10⟩, ⟨(-20, -10), -30, 15⟩) :=
  ⟨(unit_switch_resets _).1 rfl, (unit_switch_resets _).2 rfl⟩

/-- C5 counterexample: on the zero-length series the summarizer does not
fail — `hist_table` still returns one row per temperature; the unguarded
division `days_below / len(histdf)` is `0/0`, a NaN (`none`), not an
`EmptySeriesError`. -/
theorem empty_series_no_error :
    hist_table [] 0 1 = [⟨1, 0, none⟩, ⟨0, 0, none⟩] := by decide

/-- C5 amended: on a zero-length series `hist_table` raises no error; every
row has `days_below = 0` and a NaN (`none`) proportion from the `0/0`
division, while on a nonzero-length series every proportion is the rounded
quotient `days_below / length`. -/
theorem empty_series_nan (temps : List ℚ) (low high : ℤ) :
    (temps = [] → ∀ r ∈ hist_table temps low high,
      r.days_below = 0 ∧ r.proportion_below = none) ∧
    (temps ≠ [] → ∀ r ∈ hist_table temps low high,
      r.proportion_below
        = some (roundTo 3 ((r.days_below : ℚ) / temps.length))) := by
  constructor
  · rintro rfl r hr
    simp only [hist_table, List.mem_map] at hr
    obtain ⟨t, ht, rfl⟩ := hr
    simp [countBelow]
  · intro hne r hr
    have hlen : temps.length ≠ 0 := by simpa [List.length_eq_zero] using hne
    simp only [hist_table, List.mem_map] at hr
    obtain ⟨t, ht, rfl⟩ := hr
    simp [hlen]

/-- C5 amended witness: the empty series with range `[0, 1]`, and the
singleton series `[1.5]` with the same range. -/
theorem empty_series_nan_witness :
    (([] : List ℚ) = [] ∧
      ∀ r ∈ hist_table [] 0 1, r.days_below = 0 ∧ r.proportion_below = none) ∧
    (([1.5] : List ℚ) ≠ [] ∧
      ∀ r ∈ hist_table [1.5] 0 1,
        r.proportion_below
          = some (roundTo 3 ((r.days_below : ℚ) / ([1.5] : List ℚ).length))) :=
  ⟨⟨rfl, (empty_series_nan [] 0 1).1 rfl⟩,
   ⟨by decide, (empty_series_nan [1.5] 0 1).2 (by decide)⟩⟩

/-- C6 counterexample: `plot` assigns the rolling-average columns in place
on the shared cached frame returned by `filter_df`, so the frame after a
plot render differs from the frame before it. -/
theorem plot_mutates_shared_frame :
    (plot ⟨"Urbana, Illinois", ("2022-01-01", "2024-01-01"), "fahrenheit", 5, [], (0, 15)⟩
        ⟨[0], [1], none, none⟩).2
      ≠ (⟨[0], [1], none, none⟩ : WeatherDF) := by decide

/-- C6 amended: rendering the plot changes only the two rolling-average
columns of the shared frame — the raw series columns (`date`,
`temperature_2m_min`) are untouched, so the summary table computed from
the frame is the same before and after a plot render. -/
theorem plot_preserves_raw_series (inp : Inputs) (df : WeatherDF)
    (low high : ℤ) :
    ((plot inp df).2).date = df.date ∧
    ((plot inp df).2).temperature_2m_min = df.temperature_2m_min ∧
    hist_table ((plot inp df).2).temperature_2m_min low high
      = hist_table df.temperature_2m_min low high :=
  ⟨rfl, rfl, rfl⟩

/-- C7 counterexample: the catalog file's header line is not
`label,latitude,longitude` — `to_csv` writes the frame's column names. -/
theorem catalog_header_counterexample :
    catalogHeader ≠ "label,latitude,longitude" := by decide

/-- C7 amended: the catalog file's header is `city_state,lat,lng`, and the
rows are exactly those of the raw table with population at least 10000,
each label being the city name, a comma and space, and the state name. -/
theorem catalog_rows (raw : List RawCity) :
    catalogHeader = "city_state,lat,lng" ∧
    ∀ row : CityRow, row ∈ processData raw ↔
      ∃ r ∈ raw, 10000 ≤ r.population ∧
        row = ⟨r.city ++ ", " ++ r.state_name, r.lat, r.lng⟩ := by
  refine ⟨rfl, fun row => ?_⟩
  simp only [processData, List.mem_map, List.mem_filter, decide_eq_true_eq]
  constructor
  · rintro ⟨r, ⟨hr, hp⟩, rfl⟩
    exact ⟨r, hr, hp, rfl⟩
  · rintro ⟨r, hr, hp, rfl⟩
    exact ⟨r, ⟨hr, hp⟩, rfl⟩

/-- C7 amended witness: a one-row raw table above the population cutoff. -/
theorem catalog_rows_witness :
    (⟨"Urbana, Illinois", 40, -88⟩ : CityRow)
      ∈ processData [⟨"Urbana", "Illinois", 38336, 40, -88⟩] :=
  ((catalog_rows [⟨"Urbana", "Illinois", 38336, 40, -88⟩]).2 _).mpr
    ⟨⟨"Urbana", "Illinois", 38336, 40, -88⟩, by decide, by decide, by decide⟩

/-- C8: the coordinate text and the map marker are computed from the
coordinate the upstream service returns in its response, never from the
requested one: any two runs — over different catalogs, cities and
services — whose responses resolve to the same coordinate render the same
text and the same map. -/
theorem resolved_coordinate_used (fetch1 fetch2 : OMParams → OMResponse)
    (df1 df2 : List CityRow) (i1 i2 : Inputs) (r1 r2 : OMResponse)
    (h1 : apiresponse fetch1 df1 i1 = some r1)
    (h2 : apiresponse fetch2 df2 i2 = some r2)
    (hlat : r1.latitude = r2.latitude) (hlng : r1.longitude = r2.longitude) :
    textNode fetch1 df1 i1 = textNode fetch2 df2 i2 ∧
    mapNode fetch1 df1 i1 = mapNode fetch2 df2 i2 := by
  constructor <;>
    simp only [textNode, mapNode, h1, h2, Option.map_some', text, mapWidget,
      hlat, hlng]

/-- C8 witness: two catalogs placing the city at different requested
coordinates; the services resolve both requests to the same coordinate, and
the rendered text and map coincide. -/
theorem resolved_coordinate_used_witness :
    (let df1 : List CityRow := [⟨"Urbana, Illinois", 40, -88⟩]
     let df2 : List CityRow := [⟨"Urbana, Illinois", 41, -87⟩]
     let r : OMResponse := ⟨40, -88, 0, 86400, 86400, [1]⟩
     let fetchw : OMParams → OMResponse := fun _ => r
     let iA : Inputs := ⟨"Urbana, Illinois", ("2022-01-01", "2024-01-01"), "fahrenheit", 5, [], (0, 15)⟩
     textNode fetchw df1 iA = textNode fetchw df2 iA ∧
       mapNode fetchw df1 iA = mapNode fetchw df2 iA) :=
  resolved_coordinate_used _ _ _ _ _ _
    ⟨40, -88, 0, 86400, 86400, [1]⟩ ⟨40, -88, 0, 86400, 86400, [1]⟩
    (by decide) (by decide) rfl rfl

/-- C9: for every non-empty series, each table row's proportion is the
quotient `days_below / length(series)` rounded (half-to-even) to 3
decimals, and that value lies in `[0, 1]`. -/
theorem proportion_rounding (temps : List ℚ) (low high : ℤ)
    (hne : temps ≠ []) :
    ∀ r ∈ hist_table temps low high,
      r.proportion_below
        = some (roundTo 3 ((r.days_below : ℚ) / temps.length)) ∧
      ∀ q : ℚ, r.proportion_below = some q → 0 ≤ q ∧ q ≤ 1 := by
  intro r hr
  have hlen : temps.length ≠ 0 := by simpa [List.length_eq_zero] using hne
  simp only [hist_table, List.mem_map] at hr
  obtain ⟨t, ht, rfl⟩ := hr
  refine ⟨by simp [hlen], ?_⟩
  intro q hq
  simp only [if_neg hlen, Option.some_inj] at hq
  subst hq
  have hlenpos : (0 : ℚ) < temps.length := by
    have hp : 0 < temps.length := Nat.pos_of_ne_zero hlen
    exact_mod_cast hp
  have hle : (countBelow temps (t : ℚ) : ℚ) ≤ temps.length := by
    have hf := List.length_filter_le (fun x => decide (x < (t : ℚ))) temps
    rw [countBelow]
    exact_mod_cast hf
  constructor
  · exact roundTo_nonneg _ _ (by positivity)
  · exact roundTo_le_one _ _ ((div_le_one hlenpos).mpr hle)

/-- C9 witness: the singleton series `[1.5]` with table range `[0, 2]`. -/
theorem proportion_rounding_witness :
    ([1.5] : List ℚ) ≠ [] ∧
    ∀ r ∈ hist_table [1.5] 0 2,
      r.proportion_below
        = some (roundTo 3 ((r.days_below : ℚ) / ([1.5] : List ℚ).length)) ∧
      ∀ q : ℚ, r.proportion_below = some q → 0 ≤ q ∧ q ≤ 1 :=
  ⟨by decide, proportion_rounding [1.5] 0 2 (by decide)⟩

/-- C10: at module load the dashboard indexes the first catalog row labelled
`"Urbana, Illinois"`; the startup lookup succeeds exactly when the catalog
contains that label (otherwise the `[0]` indexing fails, modelled `none`),
and on success it yields the `lat` of the first such row. -/
theorem startup_urbana (df : List CityRow) :
    ((startupLat df).isSome ↔ ∃ r ∈ df, r.city_state = "Urbana, Illinois") ∧
    ∀ r : CityRow,
      df.find? (fun r => r.city_state = "Urbana, Illinois") = some r →
      startupLat df = some r.lat := by
  have hkey : startupLat df
      = (df.find? (fun r => r.city_state = "Urbana, Illinois")).map
          (fun r => r.lat) := by
    rw [startupLat, List.head?_map, head?_filter_eq_find?]
  constructor
  · rw [hkey]
    simp [List.find?_isSome]
  · intro r hr
    rw [hkey, hr, Option.map_some']

/-- C10 witness: a catalog containing the exact label succeeds with the
first row's latitude. -/
theorem startup_urbana_witness :
    startupLat [⟨"Urbana, Illinois", 40, -88⟩] = some 40 :=
  (startup_urbana [⟨"Urbana, Illinois", 40, -88⟩]).2
    ⟨"Urbana, Illinois", 40, -88⟩ (by decide)
